import Mathlib

/-!
Shallow embedding of src/app.py, a document-to-Markdown converter.

The pure core of the program is embedded directly: format_file_size,
convert_pdf, convert_docx, convert_pptx, convert_excel, convert_html, and
the per-file body of the loop in main (classification by extension,
extraction dispatch, the blank-text check, and the storage analysis).
The external parsing libraries (pypdf, python-docx, python-pptx, pandas,
BeautifulSoup) are external collaborators: the byte content of a document
is modelled by what the parse of each library yields on it — either a
structured value or a raised exception (Except.error with the exception
message, matching the broad except arms of the source).
-/

namespace DocuConvert

/-- Extension side of os.path.splitext over the char list of a path
(POSIX separator, as the program runs on Linux).  CPython takes the
extension to start at the last dot, provided that dot lies inside the
basename and at least one character of the basename before it is not a
dot (so .bashrc and ..pdf have no extension). -/
def splitextCore (cs : List Char) : List Char × List Char :=
  let base := (cs.reverse.takeWhile (fun c => c ≠ '/')).reverse
  let rest := base.dropWhile (fun c => c = '.')
  if rest.any (fun c => c = '.') then
    let ext := '.' :: (cs.reverse.takeWhile (fun c => c ≠ '.')).reverse
    (cs.take (cs.length - ext.length), ext)
  else
    (cs, [])

/-- Embedding of os.path.splitext(file_name) as used at lines 94 and 133
of src/app.py. -/
def splitext (p : String) : String × String :=
  let r := splitextCore p.data
  (⟨r.1⟩, ⟨r.2⟩)

/-- Line 94: os.path.splitext(file_name)[1].lower().  Lower-casing maps
each character; on the ASCII extension strings involved, Python str.lower
agrees with Char.toLower. -/
def fileExt (file_name : String) : String :=
  ⟨(splitext file_name).2.data.map Char.toLower⟩

/-- Closed classification of the type of an input document; the code
realises it as the chain of extension comparisons at lines 106-117. -/
inductive FormatTag where
  | PDF
  | DOCX
  | PPTX
  | XLSX
  | HTML
  | Unsupported
deriving DecidableEq

/-- Dispatch chain of lines 106-117, as a function of the lowered
extension string. -/
def classifyExt (ext : String) : FormatTag :=
  if ext = ".pdf" then .PDF
  else if ext = ".docx" then .DOCX
  else if ext = ".pptx" then .PPTX
  else if ext = ".xlsx" then .XLSX
  else if ext = ".html" ∨ ext = ".htm" then .HTML
  else .Unsupported

/-- Classification of a file: lines 94 and 106-117 — a pure function of
the file name only, through its lower-cased extension. -/
def classify (file_name : String) : FormatTag :=
  classifyExt (fileExt file_name)

/-- One document as one pipeline invocation sees it: its name, its byte
length (uploaded_file.tell() after seeking to the end), and the byte
content through the eyes of each external parser.  A value .error msg
models that library raising an exception with message msg on these bytes.
  - pdf: the extract_text() result of each page, in document order;
  - docx: the text of each paragraph, in document order;
  - pptx: per slide, per shape, some t when the shape has a text
    attribute (of value t) and none when it does not;
  - xlsx: per sheet in workbook order, the sheet name and the
    to_markdown(index=False) rendering of its grid;
  - html: the get_text(separator) result of the parsed soup. -/
structure UploadedFile where
  name : String
  size : Nat
  pdf : Except String (List String)
  docx : Except String (List String)
  pptx : Except String (List (List (Option String)))
  xlsx : Except String (List (String × String))
  html : Except String String

/-- Lines 28-38, convert_pdf: join non-empty page texts with a blank
line; any exception becomes the text "Error reading PDF: " plus the
message. -/
def convert_pdf (file_stream : Except String (List String)) : String :=
  match file_stream with
  | .ok pages =>
      String.intercalate "\n\n" (pages.foldl
        (fun acc content => if content ≠ "" then acc ++ [content] else acc) [])
  | .error e => "Error reading PDF: " ++ e

/-- Lines 40-45, convert_docx: join paragraph texts with newlines. -/
def convert_docx (file_stream : Except String (List String)) : String :=
  match file_stream with
  | .ok paras => String.intercalate "\n" paras
  | .error e => "Error reading DOCX: " ++ e

/-- Lines 47-57, convert_pptx: for each slide in order, for each shape in
order, append the text of the shape when it has one; join everything with
newlines. -/
def convert_pptx (file_stream : Except String (List (List (Option String)))) :
    String :=
  match file_stream with
  | .ok slides =>
      String.intercalate "\n" (slides.foldl
        (fun acc slide => slide.foldl
          (fun acc2 shape =>
            match shape with
            | some t => acc2 ++ [t]
            | none => acc2) acc) [])
  | .error e => "Error reading PPTX: " ++ e

/-- Lines 59-68, convert_excel: for each sheet, append a header line
naming it and then its markdown grid; join everything with blank lines. -/
def convert_excel (file_stream : Except String (List (String × String))) :
    String :=
  match file_stream with
  | .ok xls =>
      String.intercalate "\n\n" (xls.foldl
        (fun acc p => (acc ++ ["### Sheet: " ++ p.1]) ++ [p.2]) [])
  | .error e => "Error reading Excel: " ++ e

/-- Lines 70-75, convert_html: the visible text of the soup, newline
separated (the library does the tag stripping; its result is the field
of the model). -/
def convert_html (file_stream : Except String String) : String :=
  match file_stream with
  | .ok text => text
  | .error e => "Error reading HTML: " ++ e

/-- Rounding of the two-decimal float format of Python, on rationals:
the KB and MB values the program formats are an integer divided by a
power of two, held exactly by a binary double for every realistic size,
and the format then rounds the exact value to two decimal digits, ties
to even. -/
def roundHalfEven (q : Rat) : Int :=
  if q - q.floor < 1/2 then q.floor
  else if 1/2 < q - q.floor then q.floor + 1
  else if q.floor % 2 = 0 then q.floor else q.floor + 1

/-- Left-pad a sub-hundred numeral to two digits, as the float format
prints the fractional part. -/
def pad2 (n : Nat) : String :=
  if n < 10 then "0" ++ toString n else toString n

/-- Two-decimal fixed-point rendering of a non-negative value held
exactly as a rational. -/
def formatFixed2 (q : Rat) : String :=
  toString (roundHalfEven (q * 100) / 100) ++ "." ++
    pad2 (roundHalfEven (q * 100) % 100).toNat

/-- Lines 18-25, format_file_size. -/
def format_file_size (size_in_bytes : Nat) : String :=
  if size_in_bytes < 1024 then
    toString size_in_bytes ++ " bytes"
  else if size_in_bytes < 1024 * 1024 then
    formatFixed2 ((size_in_bytes : Rat) / 1024) ++ " KB"
  else
    formatFixed2 ((size_in_bytes : Rat) / (1024 * 1024)) ++ " MB"

/-- Line 120, the test on converted_text: the text is empty or consists
only of whitespace (empty string, or a stripped value that is empty). -/
def isBlank (s : String) : Bool :=
  s.data.all Char.isWhitespace

/-- Storage-efficiency record of lines 124 and 142-146: the byte length
of the text re-encoded to UTF-8, and the reduction percentage, defined
as zero when the original size is zero. -/
structure SizeReport where
  original_bytes : Nat
  extracted_bytes : Nat
  reduction_percent : Rat
deriving DecidableEq

/-- Lines 124 and 142-146 as one function of the original size and the
converted text. -/
def analyze (original_size : Nat) (converted_text : String) : SizeReport :=
  ⟨original_size, converted_text.utf8ByteSize,
    if 0 < original_size then
      (1 - (converted_text.utf8ByteSize : Rat) / (original_size : Rat)) * 100
    else 0⟩

/-- One downloadable artifact: suggested file name and content
(lines 136-138). -/
structure Artifact where
  fileName : String
  content : String
deriving DecidableEq

/-- What one iteration of the loop in main reports for one uploaded
file: the error-and-continue of line 117, the warning of line 121, or
the preview, downloads and comparison block of lines 122-165. -/
inductive Outcome where
  | unsupported (ext : String)
  | noText
  | success (text : String) (report : SizeReport)
      (markdownArtifact textArtifact : Artifact)
deriving DecidableEq

/-- Extraction dispatch of lines 104-115: the value of converted_text
after the chain (initialised to the empty string, which is what it stays
on the unsupported branch before that branch skips the file). -/
def extractedText (f : UploadedFile) : String :=
  match classify f.name with
  | .PDF => convert_pdf f.pdf
  | .DOCX => convert_docx f.docx
  | .PPTX => convert_pptx f.pptx
  | .XLSX => convert_excel f.xlsx
  | .HTML => convert_html f.html
  | .Unsupported => ""

/-- Success block of lines 122-165 for text t: preview text, storage
analysis, and the two download artifacts, whose contents are both the
converted text and whose names are the stem of the file name with the
md and txt extensions (lines 133-138). -/
def reportSuccess (f : UploadedFile) (t : String) : Outcome :=
  .success t (analyze f.size t)
    ⟨(splitext f.name).1 ++ ".md", t⟩
    ⟨(splitext f.name).1 ++ ".txt", t⟩

/-- Body of the per-file loop of main (lines 92-165) for one file. -/
def processFile (f : UploadedFile) : Outcome :=
  if classify f.name = .Unsupported then
    .unsupported (fileExt f.name)
  else if isBlank (extractedText f) then
    .noText
  else
    reportSuccess f (extractedText f)

/-- Loop of main over the uploaded files: one outcome per file,
processed in order, each file to completion before the next. -/
def run_batch : List UploadedFile → List Outcome
  | [] => []
  | f :: rest => processFile f :: run_batch rest

/-- Declarative form of the page collection of convert_pdf: the pages
that yield text, in document order. -/
def nonEmptyPages (pages : List String) : List String :=
  pages.filter (fun c => c ≠ "")

/-- Declarative form of the shape-text collection of convert_pptx: for
each slide in order, the texts of its text-bearing shapes in order. -/
def collectSlides (slides : List (List (Option String))) : List String :=
  slides.flatMap (fun sl => sl.filterMap id)

/-- Declarative form of the sheet collection of convert_excel: for each
sheet in workbook order, its header line and its grid rendering. -/
def collectSheets (xls : List (String × String)) : List String :=
  xls.flatMap (fun p => ["### Sheet: " ++ p.1, p.2])

theorem pdf_fold_eq (pages acc : List String) :
    pages.foldl (fun acc content => if content ≠ "" then acc ++ [content] else acc) acc
      = acc ++ nonEmptyPages pages := by
  induction pages generalizing acc with
  | nil => simp [nonEmptyPages]
  | cons h t ih =>
      simp only [List.foldl_cons]
      rw [ih]
      by_cases hc : h = "" <;>
        simp [nonEmptyPages, List.filter_cons, hc, List.append_assoc]

theorem shapes_fold_eq (sl : List (Option String)) (acc : List String) :
    sl.foldl (fun acc2 shape =>
        match shape with
        | some t => acc2 ++ [t]
        | none => acc2) acc
      = acc ++ sl.filterMap id := by
  induction sl generalizing acc with
  | nil => simp
  | cons h t ih => cases h <;> simp [ih, List.filterMap_cons]

theorem slides_fold_eq (slides : List (List (Option String))) (acc : List String) :
    slides.foldl (fun acc slide => slide.foldl
        (fun acc2 shape =>
          match shape with
          | some t => acc2 ++ [t]
          | none => acc2) acc) acc
      = acc ++ collectSlides slides := by
  induction slides generalizing acc with
  | nil => simp [collectSlides]
  | cons h t ih =>
      simp only [List.foldl_cons]
      rw [shapes_fold_eq, ih]
      simp [collectSlides, List.append_assoc]

theorem sheets_fold_eq (xls : List (String × String)) (acc : List String) :
    xls.foldl (fun acc p => (acc ++ ["### Sheet: " ++ p.1]) ++ [p.2]) acc
      = acc ++ collectSheets xls := by
  induction xls generalizing acc with
  | nil => simp [collectSheets]
  | cons h t ih =>
      simp only [List.foldl_cons]
      rw [ih]
      simp [collectSheets, List.append_assoc]

theorem run_batch_eq_map (docs : List UploadedFile) :
    run_batch docs = docs.map processFile := by
  induction docs with
  | nil => rfl
  | cons f rest ih => simp [run_batch, ih]

theorem isBlank_append_eq (s t : String) :
    isBlank (s ++ t) = (isBlank s && isBlank t) := by
  simp [isBlank, String.data_append, List.all_append]

theorem error_text_not_blank (p e : String) (hp : isBlank p = false) :
    isBlank (p ++ e) = false := by
  rw [isBlank_append_eq, hp]
  rfl

theorem processFile_noText (f : UploadedFile)
    (hsup : classify f.name ≠ FormatTag.Unsupported)
    (hblank : isBlank (extractedText f) = true) :
    processFile f = Outcome.noText := by
  simp [processFile, hsup, hblank]

theorem processFile_success (f : UploadedFile)
    (hsup : classify f.name ≠ FormatTag.Unsupported)
    (hblank : isBlank (extractedText f) = false) :
    processFile f = reportSuccess f (extractedText f) := by
  simp [processFile, hsup, hblank]

theorem ratFloor_intCast (k : Int) : ((k : Rat)).floor = k := by
  rw [Rat.floor_def']
  simp

theorem roundHalfEven_intCast (k : Int) : roundHalfEven ((k : Rat)) = k := by
  unfold roundHalfEven
  rw [ratFloor_intCast]
  norm_num

theorem formatFixed2_intCast (k : Int) :
    formatFixed2 ((k : Rat)) = toString k ++ "." ++ "00" := by
  unfold formatFixed2
  have h : ((k : Rat)) * 100 = (((k * 100 : Int)) : Rat) := by push_cast; ring
  rw [h, roundHalfEven_intCast]
  have h3 : k * 100 / 100 = k := by omega
  have h4 : (k * 100 % 100).toNat = 0 := by omega
  rw [h3, h4]
  rfl

def badPdfFile : UploadedFile :=
  ⟨"bad.pdf", 100, Except.error "EOF marker not found",
    Except.ok [], Except.ok [], Except.ok [], Except.ok ""⟩

/-- Claim C1 counterexample: feeding a PDF whose parse raises an
exception does not produce a ParseFailure result — the extractor returns
the error message as ordinary text, and the pipeline reports the file as
a successful extraction of that text. -/
theorem parse_failure_counterexample :
    convert_pdf (Except.error "EOF marker not found")
      = "Error reading PDF: EOF marker not found"
  ∧ processFile badPdfFile
      = reportSuccess badPdfFile "Error reading PDF: EOF marker not found" := by
  refine ⟨rfl, ?_⟩
  rw [processFile_success badPdfFile (by decide) (by decide)]
  exact congrArg _ (by decide)

/-- Claim C1 (amended): every extractor catches a parse exception at its
own boundary and converts it into the text result naming the format and
carrying the message; the exception never propagates, but the result is
an ordinary text value, not a distinct ParseFailure. -/
theorem extractor_error_boundary :
    (∀ e, convert_pdf (Except.error e) = "Error reading PDF: " ++ e)
  ∧ (∀ e, convert_docx (Except.error e) = "Error reading DOCX: " ++ e)
  ∧ (∀ e, convert_pptx (Except.error e) = "Error reading PPTX: " ++ e)
  ∧ (∀ e, convert_excel (Except.error e) = "Error reading Excel: " ++ e)
  ∧ (∀ e, convert_html (Except.error e) = "Error reading HTML: " ++ e) :=
  ⟨fun _ => rfl, fun _ => rfl, fun _ => rfl, fun _ => rfl, fun _ => rfl⟩

def demoDoc1 : UploadedFile :=
  ⟨"a.pdf", 100, Except.ok ["Hello"], Except.ok [], Except.ok [], Except.ok [],
    Except.ok ""⟩

def demoDoc2 : UploadedFile :=
  ⟨"b.pdf", 200, Except.error "EOF marker not found", Except.ok [], Except.ok [],
    Except.ok [], Except.ok ""⟩

def demoDoc3 : UploadedFile :=
  ⟨"c.docx", 50, Except.ok [], Except.ok ["World"], Except.ok [], Except.ok [],
    Except.ok ""⟩

def demoBatch : List UploadedFile := [demoDoc1, demoDoc2, demoDoc3]

/-- Claim C2 counterexample: in the three-document batch whose second
document is malformed, the second outcome is not a ParseFailure — it is
a success record carrying the error text and a size report. -/
theorem batch_failure_counterexample :
    (run_batch demoBatch).length = 3
  ∧ (run_batch demoBatch)[1]?
      = some (reportSuccess demoDoc2 "Error reading PDF: EOF marker not found") := by
  refine ⟨rfl, ?_⟩
  have h2 : processFile demoDoc2
      = reportSuccess demoDoc2 "Error reading PDF: EOF marker not found" := by
    rw [processFile_success demoDoc2 (by decide) (by decide)]
    exact congrArg _ (by decide)
  show some (processFile demoDoc2) = _
  rw [h2]

/-- Claim C2 (amended): run_batch processes each document independently
and returns exactly one outcome per input document in input order; one
document never prevents processing of the rest; in the three-document
batch whose second document is malformed, outcomes one and three are
successful extractions, and the second is a success-shaped record
carrying the PDF error text rather than a ParseFailure. -/
theorem run_batch_isolation :
    (∀ docs : List UploadedFile, run_batch docs = docs.map processFile)
  ∧ (∀ docs : List UploadedFile, (run_batch docs).length = docs.length)
  ∧ (∀ (f : UploadedFile) (rest : List UploadedFile),
       run_batch (f :: rest) = processFile f :: run_batch rest)
  ∧ run_batch demoBatch
      = [reportSuccess demoDoc1 "Hello",
         reportSuccess demoDoc2 "Error reading PDF: EOF marker not found",
         reportSuccess demoDoc3 "World"] := by
  refine ⟨run_batch_eq_map, fun docs => ?_, fun f rest => rfl, ?_⟩
  · rw [run_batch_eq_map]
    exact docs.length_map processFile
  · have e1 : processFile demoDoc1 = reportSuccess demoDoc1 "Hello" := by
      rw [processFile_success demoDoc1 (by decide) (by decide)]
      exact congrArg _ (by decide)
    have e2 : processFile demoDoc2
        = reportSuccess demoDoc2 "Error reading PDF: EOF marker not found" := by
      rw [processFile_success demoDoc2 (by decide) (by decide)]
      exact congrArg _ (by decide)
    have e3 : processFile demoDoc3 = reportSuccess demoDoc3 "World" := by
      rw [processFile_success demoDoc3 (by decide) (by decide)]
      exact congrArg _ (by decide)
    show [processFile demoDoc1, processFile demoDoc2, processFile demoDoc3] = _
    rw [e1, e2, e3]

/-- Claim C3: analyze is a pure function; its extracted size is the UTF-8
byte length of the text (not its character count), its reduction percent
is the stated formula when the original size is positive, and it is zero
rather than an error when the original size is zero. -/
theorem analyze_reduction_formula (O : Nat) (T : String) :
    (analyze O T).original_bytes = O
  ∧ (analyze O T).extracted_bytes = T.utf8ByteSize
  ∧ (0 < O → (analyze O T).reduction_percent
       = (1 - (T.utf8ByteSize : Rat) / (O : Rat)) * 100)
  ∧ (O = 0 → (analyze O T).reduction_percent = 0) := by
  refine ⟨rfl, rfl, fun h => ?_, fun h => ?_⟩
  · simp [analyze, h]
  · simp [analyze, h]

/-- Claim C3 witness: a multi-byte text counts its encoded bytes (six for
a five-character string with one two-byte character). -/
theorem analyze_reduction_formula_witness :
    (analyze 200 "héllo").extracted_bytes = 6
  ∧ "héllo".length = 5
  ∧ (analyze 200 "héllo").reduction_percent = (1 - (6 : Rat) / 200) * 100 := by
  have h := analyze_reduction_formula 200 "héllo"
  have h4 : "héllo".utf8ByteSize = 6 := by decide
  refine ⟨h.2.1.trans h4, by decide, ?_⟩
  have h3 := h.2.2.1 (by norm_num)
  rw [h4] at h3
  rw [h3]
  norm_num

/-- Claim C4: a supported document whose extracted text is empty or all
whitespace is reported as the distinct no-text outcome, which is neither
a failure nor a size report; the success outcome with its size report is
produced exactly when the text is non-trivial; in particular an HTML file
whose parse yields only whitespace text gives the no-text outcome. -/
theorem blank_text_outcome :
    (∀ f : UploadedFile, classify f.name ≠ FormatTag.Unsupported →
       isBlank (extractedText f) = true → processFile f = Outcome.noText)
  ∧ (∀ f : UploadedFile, classify f.name ≠ FormatTag.Unsupported →
       isBlank (extractedText f) = false →
       processFile f = reportSuccess f (extractedText f))
  ∧ (∀ (f : UploadedFile) (t : String), classify f.name = FormatTag.HTML →
       f.html = Except.ok t → isBlank t = true → processFile f = Outcome.noText) := by
  refine ⟨processFile_noText, processFile_success, fun f t hclass hhtml hblank => ?_⟩
  have hsup : classify f.name ≠ FormatTag.Unsupported := by
    rw [hclass]
    exact fun h => FormatTag.noConfusion h
  have htext : extractedText f = t := by
    simp [extractedText, hclass, hhtml, convert_html]
  exact processFile_noText f hsup (by rw [htext]; exact hblank)

/-- Claim C4 witness: a markup-only HTML file whose visible text is pure
whitespace yields the no-text outcome. -/
theorem blank_text_outcome_witness :
    processFile ⟨"page.html", 50, Except.ok [], Except.ok [], Except.ok [],
      Except.ok [], Except.ok "\n \n"⟩ = Outcome.noText :=
  blank_text_outcome.2.2 _ "\n \n" (by decide) rfl (by decide)

/-- Claim C5: classification is a total pure function of the file name
through its lower-cased extension, always one of the six variants; each
of the six recognized extensions maps to its tag, any other extension
maps to Unsupported, and classification never looks at file content. -/
theorem classify_total_ext :
    (∀ n, fileExt n = ".pdf" → classify n = FormatTag.PDF)
  ∧ (∀ n, fileExt n = ".docx" → classify n = FormatTag.DOCX)
  ∧ (∀ n, fileExt n = ".pptx" → classify n = FormatTag.PPTX)
  ∧ (∀ n, fileExt n = ".xlsx" → classify n = FormatTag.XLSX)
  ∧ (∀ n, fileExt n = ".html" ∨ fileExt n = ".htm" → classify n = FormatTag.HTML)
  ∧ (∀ n, fileExt n ∉ ([".pdf", ".docx", ".pptx", ".xlsx", ".html", ".htm"] : List String) →
       classify n = FormatTag.Unsupported)
  ∧ (∀ f g : UploadedFile, f.name = g.name → classify f.name = classify g.name)
  ∧ classify "Report.PDF" = FormatTag.PDF
  ∧ classify "index.htm" = FormatTag.HTML
  ∧ classify "archive.tar.gz" = FormatTag.Unsupported := by
  refine ⟨fun n h => ?_, fun n h => ?_, fun n h => ?_, fun n h => ?_,
    fun n h => ?_, fun n h => ?_, fun f g h => by rw [h], by decide, by decide, by decide⟩
  · simp [classify, classifyExt, h]
  · simp [classify, classifyExt, h]
  · simp [classify, classifyExt, h]
  · simp [classify, classifyExt, h]
  · rcases h with h | h <;> simp [classify, classifyExt, h]
  · have h1 : fileExt n ≠ ".pdf" := fun hc => h (by simp [hc])
    have h2 : fileExt n ≠ ".docx" := fun hc => h (by simp [hc])
    have h3 : fileExt n ≠ ".pptx" := fun hc => h (by simp [hc])
    have h4 : fileExt n ≠ ".xlsx" := fun hc => h (by simp [hc])
    have h5 : fileExt n ≠ ".html" := fun hc => h (by simp [hc])
    have h6 : fileExt n ≠ ".htm" := fun hc => h (by simp [hc])
    simp [classify, classifyExt, h1, h2, h3, h4, h5, h6]

/-- Claim C5 witness: a mixed-case PPTX name classified through its
lower-cased extension. -/
theorem classify_total_ext_witness :
    classify "slides.PPTX" = FormatTag.PPTX :=
  classify_total_ext.2.2.1 "slides.PPTX" (by decide)

/-- Claim C6: sizes below 1024 are rendered as a byte count, sizes below
a megabyte as the value divided by 1024 with exactly two decimal places
and a KB suffix, and all larger sizes as the value divided by one
megabyte with exactly two decimal places and an MB suffix; including the
three stated concrete renderings. -/
theorem format_file_size_contract :
    (∀ n : Nat, n < 1024 → format_file_size n = toString n ++ " bytes")
  ∧ (∀ n : Nat, 1024 ≤ n → n < 1024 * 1024 →
       format_file_size n = formatFixed2 ((n : Rat) / 1024) ++ " KB")
  ∧ (∀ n : Nat, 1024 * 1024 ≤ n →
       format_file_size n = formatFixed2 ((n : Rat) / (1024 * 1024)) ++ " MB")
  ∧ (∀ q : Rat, (roundHalfEven (q * 100) % 100).toNat < 100
       ∧ formatFixed2 q = toString (roundHalfEven (q * 100) / 100) ++ "." ++
           pad2 (roundHalfEven (q * 100) % 100).toNat)
  ∧ (∀ r : Nat, r < 100 → (pad2 r).length = 2)
  ∧ format_file_size 500 = "500 bytes"
  ∧ format_file_size 2048 = "2.00 KB"
  ∧ format_file_size (5 * 1024 * 1024) = "5.00 MB" := by
  refine ⟨fun n h => ?_, fun n h1 h2 => ?_, fun n h1 => ?_,
    fun q => ⟨by omega, rfl⟩, by decide, by decide, ?_, ?_⟩
  · simp [format_file_size, h]
  · rw [format_file_size.eq_def, if_neg (by omega), if_pos h2]
  · rw [format_file_size.eq_def, if_neg (by omega), if_neg (by omega)]
  · have h1 : format_file_size 2048 = formatFixed2 (((2048 : Nat) : Rat) / 1024) ++ " KB" := by
      rw [format_file_size.eq_def, if_neg (by omega), if_pos (by omega)]
    have h2 : ((2048 : Nat) : Rat) / 1024 = ((2 : Int) : Rat) := by norm_num
    rw [h1, h2, formatFixed2_intCast]
    rfl
  · have h1 : format_file_size (5 * 1024 * 1024)
        = formatFixed2 (((5 * 1024 * 1024 : Nat) : Rat) / (1024 * 1024)) ++ " MB" := by
      rw [format_file_size.eq_def, if_neg (by omega), if_neg (by omega)]
    have h2 : ((5 * 1024 * 1024 : Nat) : Rat) / (1024 * 1024) = ((5 : Int) : Rat) := by norm_num
    rw [h1, h2, formatFixed2_intCast]
    rfl

/-- Claim C6 witness: concrete instances of the byte branch and of the
two-digit fractional rendering. -/
theorem format_file_size_contract_witness :
    format_file_size 500 = toString (500 : Nat) ++ " bytes"
  ∧ (pad2 7).length = 2 :=
  ⟨format_file_size_contract.1 500 (by norm_num),
   format_file_size_contract.2.2.2.2.1 7 (by norm_num)⟩

/-- Claim C7: PPTX extraction collects the texts of text-bearing shapes
slide by slide in order, joining everything with single newlines; the
collection distributes over concatenation of slide sequences, so text of
a later slide never precedes text of an earlier one. -/
theorem convert_pptx_order :
    (∀ slides, convert_pptx (Except.ok slides)
       = String.intercalate "\n" (collectSlides slides))
  ∧ (∀ xs ys, collectSlides (xs ++ ys) = collectSlides xs ++ collectSlides ys)
  ∧ (∀ s1 s2, collectSlides [s1, s2] = s1.filterMap id ++ s2.filterMap id) := by
  refine ⟨fun slides => ?_, fun xs ys => by simp [collectSlides], fun s1 s2 => by simp [collectSlides]⟩
  have h := slides_fold_eq slides []
  simp only [List.nil_append] at h
  exact congrArg (String.intercalate "\n") h

/-- Claim C7 witness: two slides collected in order, with a text-free
shape skipped and a single-newline join. -/
theorem convert_pptx_order_witness :
    convert_pptx (Except.ok [[some "a", none], [some "b"]]) = "a\nb" :=
  (convert_pptx_order.1 [[some "a", none], [some "b"]]).trans (by decide)

/-- Claim C8: PDF extraction keeps the pages that yield text, in document
order, joins them with a blank-line separator, and inserts nothing for
the skipped pages. -/
theorem convert_pdf_pages :
    (∀ pages, convert_pdf (Except.ok pages)
       = String.intercalate "\n\n" (nonEmptyPages pages))
  ∧ (∀ xs ys, nonEmptyPages (xs ++ ys) = nonEmptyPages xs ++ nonEmptyPages ys)
  ∧ (∀ pages, "" ∉ nonEmptyPages pages) := by
  refine ⟨fun pages => ?_, fun xs ys => by simp [nonEmptyPages], fun pages h => ?_⟩
  · have h := pdf_fold_eq pages []
    simp only [List.nil_append] at h
    exact congrArg (String.intercalate "\n\n") h
  · simp [nonEmptyPages, List.mem_filter] at h

/-- Claim C8 witness: an empty page skipped with no placeholder, the two
texts joined by one blank line. -/
theorem convert_pdf_pages_witness :
    convert_pdf (Except.ok ["x", "", "y"]) = "x\n\ny" :=
  (convert_pdf_pages.1 ["x", "", "y"]).trans (by decide)

/-- Claim C9: XLSX extraction renders, for each sheet in workbook order,
a header line naming the sheet followed by the tabular rendering of its
grid, with blank lines separating the pieces; spelled out for a
two-sheet workbook. -/
theorem convert_excel_sheets :
    (∀ xls, convert_excel (Except.ok xls)
       = String.intercalate "\n\n" (collectSheets xls))
  ∧ (∀ xs ys, collectSheets (xs ++ ys) = collectSheets xs ++ collectSheets ys)
  ∧ (∀ n1 t1 n2 t2, convert_excel (Except.ok [(n1, t1), (n2, t2)])
       = "### Sheet: " ++ n1 ++ "\n\n" ++ t1 ++ "\n\n" ++ "### Sheet: " ++ n2 ++ "\n\n" ++ t2) := by
  refine ⟨fun xls => ?_, fun xs ys => by simp [collectSheets], fun n1 t1 n2 t2 => ?_⟩
  · have h := sheets_fold_eq xls []
    simp only [List.nil_append] at h
    exact congrArg (String.intercalate "\n\n") h
  · show String.intercalate "\n\n" ["### Sheet: " ++ n1, t1, "### Sheet: " ++ n2, t2] = _
    apply String.ext
    simp [String.intercalate, String.intercalate.go, String.data_append, List.append_assoc]

/-- Claim C9 witness: a two-sheet workbook rendered as header lines and
grids, all separated by blank lines. -/
theorem convert_excel_sheets_witness :
    convert_excel (Except.ok [("S1", "|x|"), ("S2", "|y|")])
      = "### Sheet: S1\n\n|x|\n\n### Sheet: S2\n\n|y|" :=
  (convert_excel_sheets.1 [("S1", "|x|"), ("S2", "|y|")]).trans (by decide)

/-- Claim C10: when the underlying parser raises, the extractor returns
the error string as its ordinary text result; being non-blank, the
orchestrator then reports the document as a successful extraction, with
a size report over the UTF-8 byte length of the error message and with
the error message itself as both downloadable artifacts. -/
theorem error_text_treated_as_success (f : UploadedFile) (msg : String) :
    ((fileExt f.name = ".pdf" ∧ f.pdf = Except.error msg) →
       processFile f = reportSuccess f ("Error reading PDF: " ++ msg))
  ∧ ((fileExt f.name = ".docx" ∧ f.docx = Except.error msg) →
       processFile f = reportSuccess f ("Error reading DOCX: " ++ msg))
  ∧ ((fileExt f.name = ".pptx" ∧ f.pptx = Except.error msg) →
       processFile f = reportSuccess f ("Error reading PPTX: " ++ msg))
  ∧ ((fileExt f.name = ".xlsx" ∧ f.xlsx = Except.error msg) →
       processFile f = reportSuccess f ("Error reading Excel: " ++ msg))
  ∧ (((fileExt f.name = ".html" ∨ fileExt f.name = ".htm") ∧ f.html = Except.error msg) →
       processFile f = reportSuccess f ("Error reading HTML: " ++ msg))
  ∧ (∀ t : String, reportSuccess f t
       = Outcome.success t (analyze f.size t)
           ⟨(splitext f.name).1 ++ ".md", t⟩ ⟨(splitext f.name).1 ++ ".txt", t⟩
       ∧ (analyze f.size t).extracted_bytes = t.utf8ByteSize) := by
  have step : ∀ (tag : FormatTag) (txt : String), tag ≠ FormatTag.Unsupported →
      classify f.name = tag → extractedText f = txt → isBlank txt = false →
      processFile f = reportSuccess f txt := by
    intro tag txt htag hclass htext hblank
    rw [processFile_success f (by rw [hclass]; exact htag) (by rw [htext]; exact hblank),
      htext]
  refine ⟨fun ⟨hext, hp⟩ => ?_, fun ⟨hext, hp⟩ => ?_, fun ⟨hext, hp⟩ => ?_,
    fun ⟨hext, hp⟩ => ?_, fun ⟨hext, hp⟩ => ?_, fun t => ⟨rfl, rfl⟩⟩
  · exact step FormatTag.PDF _ (by decide)
      (by rw [classify, hext]; rfl)
      (by simp [extractedText, classify, hext, classifyExt, hp, convert_pdf])
      (error_text_not_blank _ _ (by decide))
  · exact step FormatTag.DOCX _ (by decide)
      (by rw [classify, hext]; rfl)
      (by simp [extractedText, classify, hext, classifyExt, hp, convert_docx])
      (error_text_not_blank _ _ (by decide))
  · exact step FormatTag.PPTX _ (by decide)
      (by rw [classify, hext]; rfl)
      (by simp [extractedText, classify, hext, classifyExt, hp, convert_pptx])
      (error_text_not_blank _ _ (by decide))
  · exact step FormatTag.XLSX _ (by decide)
      (by rw [classify, hext]; rfl)
      (by simp [extractedText, classify, hext, classifyExt, hp, convert_excel])
      (error_text_not_blank _ _ (by decide))
  · rcases hext with hext | hext <;>
      exact step FormatTag.HTML _ (by decide)
        (by rw [classify, hext]; rfl)
        (by simp [extractedText, classify, hext, classifyExt, hp, convert_html])
        (error_text_not_blank _ _ (by decide))

/-- Claim C10 witness: a concrete crashing PDF parse reported as a
successful extraction of the error text. -/
theorem error_text_treated_as_success_witness :
    processFile ⟨"crash.pdf", 500, Except.error "boom", Except.ok [], Except.ok [],
      Except.ok [], Except.ok ""⟩
      = reportSuccess ⟨"crash.pdf", 500, Except.error "boom", Except.ok [], Except.ok [],
          Except.ok [], Except.ok ""⟩ "Error reading PDF: boom" :=
  (error_text_treated_as_success _ "boom").1 ⟨by decide, rfl⟩

end DocuConvert
